import Mathlib

/-!
Verification of the registration form controller of the `csoft` signup page
(`src/app/auth/signup/page.jsx`).

The page holds a transient registration draft (email, password,
confirmPassword, firstName, lastName, studentId, role), validates it at
submission time, and then performs two sequential external calls: an
account-creation request to the auth service (`supabase.auth.signUp`)
followed by a profile-row insert (`supabase.from(users).insert`).

The embedding below models `handleSubmit` as a pure function of
 - the draft,
 - the external password-strength policy `validatePassword`
   (a function returning an error message or nothing; the policy itself
   lives outside this repository and is kept abstract),
 - the auth-service response (`Except` of an error message or the new
   user id), and
 - the profile-insert response (an error message or nothing),
returning a record of the observable outcome: the displayed error, the
`isLoading` busy flag, the `showSuccess` flag, the requests actually
issued to the two external services, the navigation target and the
redirect delay.
-/

/-- JavaScript's `String.prototype.split` with a single-character string
separator, on the character list of the string: splitting the empty string
yields one empty part, each occurrence of the separator starts a new part. -/
def splitOnChar (sep : Char) : List Char → List (List Char)
  | [] => [[]]
  | c :: cs =>
    let r := splitOnChar sep cs
    if c = sep then [] :: r
    else
      match r with
      | [] => [[c]]
      | h :: t => (c :: h) :: t

/-- The role string of the draft; the page only ever sets it to
`"student"` (the default) or `"admin"`, but the code tests it by string
comparison against `"student"`, which is what the model does too. -/
abbrev RoleString := String

/-- The transient registration draft held by the page. -/
structure Draft where
  email : String
  password : String
  confirmPassword : String
  firstName : String
  lastName : String
  studentId : String
  role : RoleString
deriving Repr, DecidableEq

/-- The request sent to `supabase.auth.signUp`: email, password, and the
metadata object. -/
structure AuthRequest where
  email : String
  password : String
  first_name : String
  last_name : String
  student_id : Option String
  role_id : Nat
deriving Repr, DecidableEq

/-- The row sent to `supabase.from(users).insert`. -/
structure ProfileRow where
  id : String
  fname : String
  lname : String
  email : String
  role_id : Nat
  student_id : Option String
  password : String
deriving Repr, DecidableEq

/-- The observable outcome of one run of `handleSubmit`: the error message
displayed (if any), the `isLoading` and `showSuccess` flags at the end of
the run, the requests actually issued to the auth service and the data
store, the navigation destination and the redirect delay in milliseconds. -/
structure SubmitResult where
  error : Option String
  isLoading : Bool
  showSuccess : Bool
  authCall : Option AuthRequest
  profileCall : Option ProfileRow
  navTarget : Option String
  delayMs : Option Nat
deriving Repr, DecidableEq

/-- The error messages of the four validation failures, as written in the
source. -/
def passwordMismatchMsg : String := "Passwords don\x27t match"

/-- Error message for an email outside the allow-list. -/
def emailDomainMsg : String :=
  "Only Ashesi email addresses are allowed (ashesi.edu.gh or aucampus.onmicrosoft.com)"

/-- Error message for a missing student ID. -/
def studentIdRequiredMsg : String := "Student ID is required"

/-- Error message for a malformed student ID. -/
def studentIdFormatMsg : String := "Invalid Student ID format. Expected format: XXXX20XX"

/-- `validateForm` of the source: the external password policy first
(surfacing its message verbatim), then exact string equality of
`password` and `confirmPassword`. Returns the error to display, or
`none` when both checks pass. -/
def validateForm (validatePassword : String → Option String) (d : Draft) :
    Option String :=
  match validatePassword d.password with
  | some passwordError => some passwordError
  | none =>
      if d.password ≠ d.confirmPassword then some passwordMismatchMsg
      else none

/-- The email-domain check of `handleSubmit`: split the email on `@`,
require exactly two parts, and require the second part to be one of the
two allowed domains. -/
def emailDomainOk (email : String) : Bool :=
  match splitOnChar '@' email.toList with
  | [_, domain] =>
      domain = "ashesi.edu.gh".toList ∨ domain = "aucampus.onmicrosoft.com".toList
  | _ => false

/-- The student-ID pattern `^\d{4}20\d{2}$` of the source: four ASCII
digits, the literal characters `2` `0`, then two ASCII digits — eight
characters in all. -/
def studentIdOk (s : String) : Bool :=
  let cs := s.toList
  cs.length = 8
  ∧ (cs.take 4).all Char.isDigit
  ∧ cs.getD 4 ' ' = '2'
  ∧ cs.getD 5 ' ' = '0'
  ∧ (cs.drop 6).all Char.isDigit

/-- The metadata sent with the auth-service signUp call. -/
def mkAuthRequest (d : Draft) : AuthRequest :=
  { email := d.email
    password := d.password
    first_name := d.firstName
    last_name := d.lastName
    student_id := if d.role = "student" then some d.studentId else none
    role_id := if d.role = "student" then 3 else 2 }

/-- The profile row inserted into the `users` table, keyed by the id the
auth service returned. -/
def mkProfileRow (uid : String) (d : Draft) : ProfileRow :=
  { id := uid
    fname := d.firstName
    lname := d.lastName
    email := d.email
    role_id := if d.role = "student" then 3 else 2
    student_id := if d.role = "student" then some d.studentId else none
    password := "hashed_by_supabase" }

/-- Outcome of a failing path: the message is displayed, `isLoading` is
reset to `false`, `showSuccess` stays `false`, no navigation is scheduled;
the call fields record which external requests had been issued before the
failure. -/
def failedRun (msg : String) (a : Option AuthRequest) (p : Option ProfileRow) :
    SubmitResult :=
  { error := some msg
    isLoading := false
    showSuccess := false
    authCall := a
    profileCall := p
    navTarget := none
    delayMs := none }

/-- Outcome of the fully successful path: `setShowSuccess(true)` with
`isLoading` never reset, both external requests issued, and a
role-dependent redirect scheduled after 5000 ms. -/
def successRun (uid : String) (d : Draft) : SubmitResult :=
  { error := none
    isLoading := true
    showSuccess := true
    authCall := some (mkAuthRequest d)
    profileCall := some (mkProfileRow uid d)
    navTarget := some (if d.role = "student" then "/dashboard/student"
                       else "/dashboard/admin")
    delayMs := some 5000 }

/-- `handleSubmit` of the source, as a pure function of the draft and the
responses of the two external services. It mirrors the source line by
line: `validateForm`, then the email-domain check, then (for students)
the student-ID presence and format checks, each short-circuiting with its
message and `setIsLoading(false)`; then the auth signUp call (throwing its
error), then the profile insert (throwing its error), and on full success
`setShowSuccess(true)` and a role-dependent redirect after 5000 ms. -/
def handleSubmit (validatePassword : String → Option String)
    (authResp : Except String String) (insertResp : Option String)
    (d : Draft) : SubmitResult :=
  match validateForm validatePassword d with
  | some e => failedRun e none none
  | none =>
    if ¬ emailDomainOk d.email then
      failedRun emailDomainMsg none none
    else if d.role = "student" ∧ d.studentId = "" then
      failedRun studentIdRequiredMsg none none
    else if d.role = "student" ∧ ¬ studentIdOk d.studentId then
      failedRun studentIdFormatMsg none none
    else
      let req := mkAuthRequest d
      match authResp with
      | Except.error e => failedRun e (some req) none
      | Except.ok uid =>
        let row := mkProfileRow uid d
        match insertResp with
        | some e => failedRun e (some req) (some row)
        | none => successRun uid d

/-- A draft that passes every validation check (with any password policy
that accepts its password). -/
def studentDraft : Draft :=
  { email := "eddie.kay@ashesi.edu.gh"
    password := "Abc123!@"
    confirmPassword := "Abc123!@"
    firstName := "Eddie"
    lastName := "Kay"
    studentId := "12342023"
    role := "student" }

/-- The same draft with the staff/admin role selected. -/
def adminDraft : Draft :=
  { studentDraft with role := "admin", studentId := "" }

/-- A password policy that accepts every password, used to exercise the
paths past the strength check on concrete inputs. -/
def acceptAll : String → Option String := fun _ => none

/-- Splitting never yields the empty list of parts. -/
theorem splitOnChar_ne_nil (sep : Char) (l : List Char) :
    splitOnChar sep l ≠ [] := by
  induction l with
  | nil => simp [splitOnChar]
  | cons c cs ih =>
    simp only [splitOnChar]
    split
    · simp
    · split
      · simp
      · simp

/-- A one-part split means the separator never occurred: the single part
is the whole input. -/
theorem splitOnChar_eq_single (sep : Char) :
    ∀ l b : List Char, splitOnChar sep l = [b] → l = b := by
  intro l
  induction l with
  | nil =>
    intro b h
    simp only [splitOnChar, List.cons.injEq] at h
    exact h.1
  | cons c cs ih =>
    intro b h
    simp only [splitOnChar] at h
    by_cases hc : c = sep
    · rw [if_pos hc] at h
      simp only [List.cons.injEq] at h
      exact absurd h.2 (splitOnChar_ne_nil sep cs)
    · rw [if_neg hc] at h
      cases hr : splitOnChar sep cs with
      | nil => exact absurd hr (splitOnChar_ne_nil sep cs)
      | cons p t =>
        rw [hr] at h
        simp only [List.cons.injEq] at h
        obtain ⟨hb, ht⟩ := h
        have := ih p (by rw [hr, ht])
        rw [← hb, this]

/-- A two-part split recovers the input: the separator sits between the
two parts. -/
theorem splitOnChar_eq_pair (sep : Char) :
    ∀ l a b : List Char, splitOnChar sep l = [a, b] → l = a ++ sep :: b := by
  intro l
  induction l with
  | nil =>
    intro a b h
    simp [splitOnChar] at h
  | cons c cs ih =>
    intro a b h
    simp only [splitOnChar] at h
    by_cases hc : c = sep
    · rw [if_pos hc] at h
      simp only [List.cons.injEq] at h
      obtain ⟨ha, hr⟩ := h
      have := splitOnChar_eq_single sep cs b hr
      rw [← ha, this, hc]
      rfl
    · rw [if_neg hc] at h
      cases hr : splitOnChar sep cs with
      | nil => exact absurd hr (splitOnChar_ne_nil sep cs)
      | cons p t =>
        rw [hr] at h
        simp only [List.cons.injEq] at h
        obtain ⟨ha, ht⟩ := h
        have := ih p b (by rw [hr, ht])
        rw [← ha, this]
        rfl

/-- An email the domain check accepts ends in one of the two allowed
`@domain` suffixes. -/
theorem emailDomainOk_endsWith (email : String)
    (h : emailDomainOk email = true) :
    "@ashesi.edu.gh".toList <:+ email.toList ∨
    "@aucampus.onmicrosoft.com".toList <:+ email.toList := by
  unfold emailDomainOk at h
  rcases hs : splitOnChar '@' email.toList with _ | ⟨x, _ | ⟨y, _ | ⟨z, t⟩⟩⟩ <;>
    rw [hs] at h
  · simp at h
  · simp at h
  · simp only [decide_eq_true_eq] at h
    have he := splitOnChar_eq_pair '@' email.toList x y hs
    have h1 : "@ashesi.edu.gh".toList = '@' :: "ashesi.edu.gh".toList := rfl
    have h2 : "@aucampus.onmicrosoft.com".toList =
        '@' :: "aucampus.onmicrosoft.com".toList := rfl
    rcases h with hd | hd
    · left
      rw [he, hd, h1]
      exact List.suffix_append x ('@' :: "ashesi.edu.gh".toList)
    · right
      rw [he, hd, h2]
      exact List.suffix_append x ('@' :: "aucampus.onmicrosoft.com".toList)
  · simp at h

/-- C1: at submission time the validation checks run in exactly this
order, short-circuiting on the first failure so only the first error
message is surfaced: (1) the external password policy, whose message is
surfaced verbatim; (2) password/confirmPassword equality; (3) email
domain membership; (4) for students, studentId presence then pattern.
Each of the four local failures carries its own distinct message, and
every failing outcome carries exactly one message and issues no external
call. -/
theorem submit_validation_order (vp : String → Option String)
    (a : Except String String) (ins : Option String) (d : Draft) :
    (∀ e, vp d.password = some e →
        handleSubmit vp a ins d = failedRun e none none)
  ∧ (vp d.password = none → d.password ≠ d.confirmPassword →
        handleSubmit vp a ins d = failedRun passwordMismatchMsg none none)
  ∧ (vp d.password = none → d.password = d.confirmPassword →
        emailDomainOk d.email = false →
        handleSubmit vp a ins d = failedRun emailDomainMsg none none)
  ∧ (vp d.password = none → d.password = d.confirmPassword →
        emailDomainOk d.email = true → d.role = "student" → d.studentId = "" →
        handleSubmit vp a ins d = failedRun studentIdRequiredMsg none none)
  ∧ (vp d.password = none → d.password = d.confirmPassword →
        emailDomainOk d.email = true → d.role = "student" → d.studentId ≠ "" →
        studentIdOk d.studentId = false →
        handleSubmit vp a ins d = failedRun studentIdFormatMsg none none)
  ∧ (passwordMismatchMsg ≠ emailDomainMsg ∧
        passwordMismatchMsg ≠ studentIdRequiredMsg ∧
        passwordMismatchMsg ≠ studentIdFormatMsg ∧
        emailDomainMsg ≠ studentIdRequiredMsg ∧
        emailDomainMsg ≠ studentIdFormatMsg ∧
        studentIdRequiredMsg ≠ studentIdFormatMsg) := by
  refine ⟨?_, ?_, ?_, ?_, ?_, ?_⟩
  · intro e h
    simp [handleSubmit, validateForm, h]
  · intro h1 h2
    simp [handleSubmit, validateForm, h1, h2]
  · intro h1 h2 h3
    rw [h2] at h1
    simp [handleSubmit, validateForm, h1, h2, h3]
  · intro h1 h2 h3 h4 h5
    rw [h2] at h1
    simp [handleSubmit, validateForm, h1, h2, h3, h4, h5]
  · intro h1 h2 h3 h4 h5 h6
    rw [h2] at h1
    simp [handleSubmit, validateForm, h1, h2, h3, h4, h5, h6]
  · refine ⟨?_, ?_, ?_, ?_, ?_, ?_⟩ <;> decide

/-- Witness for C1 at a concrete input: a rejecting password policy
aborts the run with the policy's own message, before everything else. -/
theorem submit_validation_order_witness :
    (fun _ : String => some "Password is too weak") "Abc123!@" =
      some "Password is too weak" ∧
    handleSubmit (fun _ : String => some "Password is too weak")
        (Except.error "boom") none studentDraft =
      failedRun "Password is too weak" none none :=
  ⟨rfl,
   (submit_validation_order (fun _ : String => some "Password is too weak")
       (Except.error "boom") none studentDraft).1 "Password is too weak" rfl⟩

/-- C2: whenever the earlier password checks pass, every email that does
not end in `@ashesi.edu.gh` or `@aucampus.onmicrosoft.com` makes the
submission fail with the domain error message, before any external call:
the split-on-`@` gate only accepts emails with exactly two parts whose
second part is one of the two allowed domains, and any such email ends in
one of the two suffixes. -/
theorem email_outside_allowlist_fails (vp : String → Option String)
    (a : Except String String) (ins : Option String) (d : Draft)
    (hvp : vp d.password = none)
    (heq : d.password = d.confirmPassword)
    (h1 : ¬ ("@ashesi.edu.gh".toList <:+ d.email.toList))
    (h2 : ¬ ("@aucampus.onmicrosoft.com".toList <:+ d.email.toList)) :
    handleSubmit vp a ins d = failedRun emailDomainMsg none none := by
  have hok : emailDomainOk d.email = false := by
    cases hE : emailDomainOk d.email
    · rfl
    · rcases emailDomainOk_endsWith d.email hE with h | h
      · exact absurd h h1
      · exact absurd h h2
  rw [heq] at hvp
  simp [handleSubmit, validateForm, hvp, heq, hok]

/-- Witness for C2 at a concrete input: a gmail address is rejected with
the domain message. -/
theorem email_outside_allowlist_fails_witness :
    ¬ ("@ashesi.edu.gh".toList <:+ "eddie@gmail.com".toList) ∧
    ¬ ("@aucampus.onmicrosoft.com".toList <:+ "eddie@gmail.com".toList) ∧
    handleSubmit acceptAll (Except.error "boom") none
        { studentDraft with email := "eddie@gmail.com" } =
      failedRun emailDomainMsg none none :=
  ⟨by decide, by decide,
   email_outside_allowlist_fails acceptAll (Except.error "boom") none
     { studentDraft with email := "eddie@gmail.com" }
     rfl rfl (by decide) (by decide)⟩

/-- C3: with the earlier checks passing and role student, any studentId
failing the pattern `^\d{4}20\d{2}$` makes the submission fail with one
of the two student-ID error messages (the presence error for the empty
string, the format error otherwise), and the concrete value `12342023`
passes the student-ID check. -/
theorem student_id_validation (vp : String → Option String)
    (a : Except String String) (ins : Option String) (d : Draft)
    (hvp : vp d.password = none)
    (heq : d.password = d.confirmPassword)
    (hem : emailDomainOk d.email = true)
    (hrole : d.role = "student") :
    (studentIdOk d.studentId = false →
        handleSubmit vp a ins d = failedRun studentIdRequiredMsg none none ∨
        handleSubmit vp a ins d = failedRun studentIdFormatMsg none none)
  ∧ studentIdOk "12342023" = true := by
  constructor
  · intro hpat
    rw [heq] at hvp
    by_cases hid : d.studentId = ""
    · left
      simp [handleSubmit, validateForm, hvp, heq, hem, hrole, hid]
    · right
      simp [handleSubmit, validateForm, hvp, heq, hem, hrole, hid, hpat]
  · decide

/-- Witness for C3 at a concrete input: the four-digit id `1234` fails
the pattern and the submission aborts with a student-ID error. -/
theorem student_id_validation_witness :
    studentIdOk "1234" = false ∧
    (handleSubmit acceptAll (Except.error "boom") none
        { studentDraft with studentId := "1234" } =
        failedRun studentIdRequiredMsg none none ∨
      handleSubmit acceptAll (Except.error "boom") none
        { studentDraft with studentId := "1234" } =
        failedRun studentIdFormatMsg none none) :=
  ⟨by decide,
   (student_id_validation acceptAll (Except.error "boom") none
       { studentDraft with studentId := "1234" }
       rfl rfl (by decide) rfl).1 (by decide)⟩

/-- C4: the password-equality check is exact string equality: when the
two fields are equal, `validateForm` returns exactly what the external
policy returns (so equal passwords pass the equality check), and when
they differ (with the policy passing) the run fails with the mismatch
message and no external call is issued. -/
theorem password_equality_check (vp : String → Option String)
    (a : Except String String) (ins : Option String) (d : Draft) :
    (d.password = d.confirmPassword → validateForm vp d = vp d.password)
  ∧ (vp d.password = none → d.password ≠ d.confirmPassword →
        handleSubmit vp a ins d = failedRun passwordMismatchMsg none none) := by
  constructor
  · intro h
    unfold validateForm
    cases hv : vp d.password <;> simp [hv, h]
  · intro h1 h2
    simp [handleSubmit, validateForm, h1, h2]

/-- Witness for C4 at concrete inputs: equal passwords `Abc123!@` pass
the equality check, and confirm `different` aborts with the mismatch
message before any external call. -/
theorem password_equality_check_witness :
    ("Abc123!@" : String) = "Abc123!@" ∧
    validateForm acceptAll studentDraft = acceptAll "Abc123!@" ∧
    ("Abc123!@" : String) ≠ "different" ∧
    handleSubmit acceptAll (Except.error "boom") none
        { studentDraft with confirmPassword := "different" } =
      failedRun passwordMismatchMsg none none :=
  ⟨rfl,
   (password_equality_check acceptAll (Except.error "boom") none
       studentDraft).1 rfl,
   by decide,
   (password_equality_check acceptAll (Except.error "boom") none
       { studentDraft with confirmPassword := "different" }).2 rfl (by decide)⟩

/-- A run that reached the auth call passed every validation check. -/
theorem calls_imply_valid (vp : String → Option String)
    (a : Except String String) (ins : Option String) (d : Draft)
    (h : ((handleSubmit vp a ins d).authCall).isSome = true) :
    validateForm vp d = none ∧ emailDomainOk d.email = true ∧
    (d.role = "student" → d.studentId ≠ "" ∧ studentIdOk d.studentId = true) := by
  cases hv : validateForm vp d with
  | some e => simp [handleSubmit, hv, failedRun] at h
  | none =>
    cases hem : emailDomainOk d.email with
    | false => simp [handleSubmit, hv, hem, failedRun] at h
    | true =>
      refine ⟨rfl, rfl, ?_⟩
      intro hrole
      by_cases hid : d.studentId = ""
      · simp [handleSubmit, hv, hem, hrole, hid, failedRun] at h
      · refine ⟨hid, ?_⟩
        cases hok : studentIdOk d.studentId with
        | false => simp [handleSubmit, hv, hem, hrole, hid, hok, failedRun] at h
        | true => rfl

/-- On a draft that passes every validation check, the run is decided by
the two external responses alone: an auth error fails with its message,
otherwise an insert error fails with its message, otherwise the run
succeeds. -/
theorem handleSubmit_of_valid (vp : String → Option String)
    (a : Except String String) (ins : Option String) (d : Draft)
    (hv : validateForm vp d = none)
    (hem : emailDomainOk d.email = true)
    (hsid : d.role = "student" → d.studentId ≠ "" ∧ studentIdOk d.studentId = true) :
    handleSubmit vp a ins d =
      match a with
      | Except.error e => failedRun e (some (mkAuthRequest d)) none
      | Except.ok uid =>
        match ins with
        | some e => failedRun e (some (mkAuthRequest d)) (some (mkProfileRow uid d))
        | none => successRun uid d := by
  by_cases hrole : d.role = "student"
  · obtain ⟨hid, hok⟩ := hsid hrole
    simp [handleSubmit, hv, hem, hrole, hid, hok]
  · simp [handleSubmit, hv, hem, hrole]

/-- Every run either fails with some message or is the success outcome
for the id the auth service returned. -/
theorem handleSubmit_shape (vp : String → Option String)
    (a : Except String String) (ins : Option String) (d : Draft) :
    (∃ msg ac pc, handleSubmit vp a ins d = failedRun msg ac pc) ∨
    ∃ uid, a = Except.ok uid ∧ ins = none ∧
      handleSubmit vp a ins d = successRun uid d := by
  unfold handleSubmit
  repeat' split
  all_goals first
    | exact Or.inl ⟨_, _, _, rfl⟩
    | exact Or.inr ⟨_, rfl, rfl, rfl⟩

/-- Every auth request the controller ever issues is `mkAuthRequest` of
the draft. -/
theorem handleSubmit_authCall_cases (vp : String → Option String)
    (a : Except String String) (ins : Option String) (d : Draft) :
    (handleSubmit vp a ins d).authCall = none ∨
    (handleSubmit vp a ins d).authCall = some (mkAuthRequest d) := by
  unfold handleSubmit
  repeat' split
  all_goals simp [failedRun, successRun]

/-- Every profile row the controller ever inserts is `mkProfileRow` of
the id the auth service returned and the draft, and it is only attempted
when the auth response was a success. -/
theorem handleSubmit_profileCall_cases (vp : String → Option String)
    (a : Except String String) (ins : Option String) (d : Draft) :
    (handleSubmit vp a ins d).profileCall = none ∨
    ∃ uid, a = Except.ok uid ∧
      (handleSubmit vp a ins d).profileCall = some (mkProfileRow uid d) := by
  unfold handleSubmit
  repeat' split
  all_goals simp_all [failedRun, successRun]

/-- C5: the role identifier sent in both external calls is 3 for the
student role and 2 for any other role, and for a non-student role the
student_id field sent in both calls is null regardless of the studentId
draft value. -/
theorem submitted_role_fields (vp : String → Option String)
    (a : Except String String) (ins : Option String) (d : Draft) :
    (∀ req, (handleSubmit vp a ins d).authCall = some req →
        req.role_id = (if d.role = "student" then 3 else 2) ∧
        (d.role ≠ "student" → req.student_id = none))
  ∧ (∀ row, (handleSubmit vp a ins d).profileCall = some row →
        row.role_id = (if d.role = "student" then 3 else 2) ∧
        (d.role ≠ "student" → row.student_id = none)) := by
  constructor
  · intro req h
    rcases handleSubmit_authCall_cases vp a ins d with hc | hc
    · rw [hc] at h
      exact absurd h (by simp)
    · rw [hc] at h
      obtain rfl : req = mkAuthRequest d := (Option.some.injEq _ _ ▸ h).symm
      constructor
      · rfl
      · intro hr
        simp [mkAuthRequest, hr]
  · intro row h
    rcases handleSubmit_profileCall_cases vp a ins d with hc | ⟨uid, _, hc⟩
    · rw [hc] at h
      exact absurd h (by simp)
    · rw [hc] at h
      obtain rfl : row = mkProfileRow uid d := (Option.some.injEq _ _ ▸ h).symm
      constructor
      · rfl
      · intro hr
        simp [mkProfileRow, hr]

/-- Witness for C5 at a concrete input: an admin submission sends
role_id 2 and a null student_id in the auth request even though the
studentId draft field is non-empty. -/
theorem submitted_role_fields_witness :
    (handleSubmit acceptAll (Except.ok "uid-1") none
        { adminDraft with studentId := "12342023" }).authCall =
      some (mkAuthRequest { adminDraft with studentId := "12342023" }) ∧
    (mkAuthRequest { adminDraft with studentId := "12342023" }).role_id = 2 ∧
    (mkAuthRequest { adminDraft with studentId := "12342023" }).student_id = none := by
  have h := (submitted_role_fields acceptAll (Except.ok "uid-1") none
      { adminDraft with studentId := "12342023" }).1
    (mkAuthRequest { adminDraft with studentId := "12342023" }) (by decide)
  refine ⟨by decide, ?_, h.2 (by decide)⟩
  rw [h.1]
  decide

/-- C6: the two external calls are strictly sequential: a profile insert
is only ever attempted when the auth response was a success, and when the
auth call errors on a run that reached it, the whole submission fails
with the backend's message verbatim, the profile insert is never
attempted, and the busy flag is cleared. -/
theorem auth_error_aborts (vp : String → Option String) (msg : String)
    (ins : Option String) (d : Draft)
    (hcalled : ((handleSubmit vp (Except.error msg) ins d).authCall).isSome = true) :
    handleSubmit vp (Except.error msg) ins d =
      failedRun msg (some (mkAuthRequest d)) none ∧
    ∀ a : Except String String,
      ((handleSubmit vp a ins d).profileCall).isSome = true →
        ∃ uid, a = Except.ok uid := by
  constructor
  · obtain ⟨hv, hem, hsid⟩ :=
      calls_imply_valid vp (Except.error msg) ins d hcalled
    rw [handleSubmit_of_valid vp (Except.error msg) ins d hv hem hsid]
  · intro a hp
    rcases handleSubmit_profileCall_cases vp a ins d with hc | ⟨uid, ha, _⟩
    · rw [hc] at hp
      exact absurd hp (by simp)
    · exact ⟨uid, ha⟩

/-- Witness for C6 at a concrete input: a failing auth call on a valid
draft surfaces its message and no profile insert happens. -/
theorem auth_error_aborts_witness :
    ((handleSubmit acceptAll (Except.error "Email already registered") none
        studentDraft).authCall).isSome = true ∧
    handleSubmit acceptAll (Except.error "Email already registered") none
        studentDraft =
      failedRun "Email already registered" (some (mkAuthRequest studentDraft)) none :=
  ⟨by decide,
   (auth_error_aborts acceptAll "Email already registered" none studentDraft
      (by decide)).1⟩

/-- C7: with the auth call succeeding and the profile insert failing, the
run ends as a failure that surfaces the insert error message, does not
set the succeeded flag, schedules no navigation and no delay, and
performs no further action beyond the two calls already made. -/
theorem insert_error_surfaced (vp : String → Option String)
    (uid emsg : String) (d : Draft)
    (hcalled : ((handleSubmit vp (Except.ok uid) (some emsg) d).authCall).isSome = true) :
    handleSubmit vp (Except.ok uid) (some emsg) d =
      failedRun emsg (some (mkAuthRequest d)) (some (mkProfileRow uid d)) ∧
    (handleSubmit vp (Except.ok uid) (some emsg) d).error = some emsg ∧
    (handleSubmit vp (Except.ok uid) (some emsg) d).showSuccess = false ∧
    (handleSubmit vp (Except.ok uid) (some emsg) d).navTarget = none ∧
    (handleSubmit vp (Except.ok uid) (some emsg) d).delayMs = none := by
  have hmain : handleSubmit vp (Except.ok uid) (some emsg) d =
      failedRun emsg (some (mkAuthRequest d)) (some (mkProfileRow uid d)) := by
    obtain ⟨hv, hem, hsid⟩ :=
      calls_imply_valid vp (Except.ok uid) (some emsg) d hcalled
    rw [handleSubmit_of_valid vp (Except.ok uid) (some emsg) d hv hem hsid]
  exact ⟨hmain, by rw [hmain]; rfl, by rw [hmain]; rfl, by rw [hmain]; rfl,
    by rw [hmain]; rfl⟩

/-- Witness for C7 at a concrete input: a failing insert after a
successful auth call surfaces the insert message and does not navigate. -/
theorem insert_error_surfaced_witness :
    ((handleSubmit acceptAll (Except.ok "uid-1") (some "insert failed")
        studentDraft).authCall).isSome = true ∧
    (handleSubmit acceptAll (Except.ok "uid-1") (some "insert failed")
        studentDraft).error = some "insert failed" ∧
    (handleSubmit acceptAll (Except.ok "uid-1") (some "insert failed")
        studentDraft).showSuccess = false ∧
    (handleSubmit acceptAll (Except.ok "uid-1") (some "insert failed")
        studentDraft).navTarget = none :=
  ⟨by decide,
   (insert_error_surfaced acceptAll "uid-1" "insert failed" studentDraft
      (by decide)).2.1,
   (insert_error_surfaced acceptAll "uid-1" "insert failed" studentDraft
      (by decide)).2.2.1,
   (insert_error_surfaced acceptAll "uid-1" "insert failed" studentDraft
      (by decide)).2.2.2.1⟩

/-- C8: with both external calls succeeding on a run that reached them,
the controller sets the succeeded flag, schedules a 5000 ms delay, and
navigates to /dashboard/student when the role is student and to
/dashboard/admin otherwise. -/
theorem success_path_navigation (vp : String → Option String)
    (uid : String) (d : Draft)
    (hcalled : ((handleSubmit vp (Except.ok uid) none d).authCall).isSome = true) :
    (handleSubmit vp (Except.ok uid) none d).showSuccess = true ∧
    (handleSubmit vp (Except.ok uid) none d).delayMs = some 5000 ∧
    (handleSubmit vp (Except.ok uid) none d).navTarget =
      some (if d.role = "student" then "/dashboard/student"
            else "/dashboard/admin") := by
  obtain ⟨hv, hem, hsid⟩ := calls_imply_valid vp (Except.ok uid) none d hcalled
  rw [handleSubmit_of_valid vp (Except.ok uid) none d hv hem hsid]
  exact ⟨rfl, rfl, rfl⟩

/-- Witness for C8 at concrete inputs: a fully successful student
submission navigates to /dashboard/student after 5000 ms, and a fully
successful admin submission navigates to /dashboard/admin. -/
theorem success_path_navigation_witness :
    ((handleSubmit acceptAll (Except.ok "uid-1") none studentDraft).authCall).isSome
        = true ∧
    (handleSubmit acceptAll (Except.ok "uid-1") none studentDraft).showSuccess
        = true ∧
    (handleSubmit acceptAll (Except.ok "uid-1") none studentDraft).delayMs
        = some 5000 ∧
    (handleSubmit acceptAll (Except.ok "uid-1") none studentDraft).navTarget
        = some "/dashboard/student" ∧
    (handleSubmit acceptAll (Except.ok "uid-1") none adminDraft).navTarget
        = some "/dashboard/admin" := by
  have hs := success_path_navigation acceptAll "uid-1" studentDraft (by decide)
  have ha := success_path_navigation acceptAll "uid-1" adminDraft (by decide)
  refine ⟨by decide, hs.1, hs.2.1, ?_, ?_⟩
  · rw [hs.2.2]
    decide
  · rw [ha.2.2]
    decide

/-- C9: every failing run (validation failure, auth error, or insert
error) ends back in the idle state: the busy flag isLoading is cleared
and the triggering error message is displayed, so the user may resubmit;
nothing is retried. -/
theorem failure_returns_to_idle (vp : String → Option String)
    (a : Except String String) (ins : Option String) (d : Draft)
    (h : (handleSubmit vp a ins d).showSuccess = false) :
    (handleSubmit vp a ins d).isLoading = false ∧
    ((handleSubmit vp a ins d).error).isSome = true := by
  rcases handleSubmit_shape vp a ins d with ⟨msg, ac, pc, hs⟩ | ⟨uid, _, _, hs⟩
  · rw [hs]
    exact ⟨rfl, rfl⟩
  · rw [hs] at h
    simp [successRun] at h

/-- Witness for C9 at a concrete input: a submission with a disallowed
email domain ends with the busy flag cleared and an error displayed. -/
theorem failure_returns_to_idle_witness :
    (handleSubmit acceptAll (Except.error "boom") none
        { studentDraft with email := "eddie@gmail.com" }).showSuccess = false ∧
    (handleSubmit acceptAll (Except.error "boom") none
        { studentDraft with email := "eddie@gmail.com" }).isLoading = false ∧
    ((handleSubmit acceptAll (Except.error "boom") none
        { studentDraft with email := "eddie@gmail.com" }).error).isSome = true :=
  ⟨by decide,
   (failure_returns_to_idle acceptAll (Except.error "boom") none
      { studentDraft with email := "eddie@gmail.com" } (by decide)).1,
   (failure_returns_to_idle acceptAll (Except.error "boom") none
      { studentDraft with email := "eddie@gmail.com" } (by decide)).2⟩

/-- C10: on the fully successful path the busy flag is never cleared:
whenever a run ends with the succeeded flag set, isLoading is still true
(and no error is displayed), so duplicate submission stays disabled from
submission through the success display until navigation. -/
theorem success_keeps_busy_flag (vp : String → Option String)
    (a : Except String String) (ins : Option String) (d : Draft)
    (h : (handleSubmit vp a ins d).showSuccess = true) :
    (handleSubmit vp a ins d).isLoading = true ∧
    (handleSubmit vp a ins d).error = none := by
  rcases handleSubmit_shape vp a ins d with ⟨msg, ac, pc, hs⟩ | ⟨uid, _, _, hs⟩
  · rw [hs] at h
    simp [failedRun] at h
  · rw [hs]
    exact ⟨rfl, rfl⟩

/-- Witness for C10 at a concrete input: a fully successful submission
ends with the busy flag still set and no error. -/
theorem success_keeps_busy_flag_witness :
    (handleSubmit acceptAll (Except.ok "uid-1") none studentDraft).showSuccess
        = true ∧
    (handleSubmit acceptAll (Except.ok "uid-1") none studentDraft).isLoading
        = true ∧
    (handleSubmit acceptAll (Except.ok "uid-1") none studentDraft).error
        = none :=
  ⟨by decide,
   (success_keeps_busy_flag acceptAll (Except.ok "uid-1") none studentDraft
      (by decide)).1,
   (success_keeps_busy_flag acceptAll (Except.ok "uid-1") none studentDraft
      (by decide)).2⟩
